import Mathlib

/-
Verification of the lowering rule in
src/xdsl/transforms/experimental/memref_dma_to_pulp.py
(class LowerDmaStartToPulpMchan), which rewrites a memref.dma_start
operation into PULP mchan driver calls.
-/

namespace MemrefDmaToPulp

/-- Attributes as far as this rule inspects them: the `memory_space` field of a
memref type is either an `IntegerAttr` carrying a non-negative region tag
(spec data model: tags are small non-negative integers), the default
`NoneAttr`, or some other attribute kind. -/
inductive Attr where
  | integerAttr (value : Nat)
  | noneAttr
  | otherAttr (id : Nat)
deriving DecidableEq, Repr

/-- Types as far as this rule inspects them: `memrefTy` mirrors
`memref.MemRefType` keeping only the `memory_space` parameter (the only part
the rule reads); `i32`, `i1` and `index` mirror the builtin types used in the
emitted operations; `otherTy` stands for any other type. -/
inductive Ty where
  | memrefTy (memory_space : Attr)
  | i32
  | i1
  | index
  | otherTy (id : Nat)
deriving DecidableEq, Repr

/-- An SSA value of the surrounding program: an identity plus its type
(mirrors xdsl `SSAValue`, keeping only what the rule reads). -/
structure SSAValue where
  id : Nat
  typ : Ty
deriving DecidableEq, Repr

/-- Modelled from the spec: the Copy Instruction (memref.DmaStartOp) as the
rule consumes it — a source buffer descriptor, a destination buffer
descriptor, an element-count operand, and one result slot. The dialect
definition of DmaStartOp is not part of the analysed source tree; these are
the four attributes the spec ascribes to the input instruction. -/
structure DmaStartOp where
  src : SSAValue
  dest : SSAValue
  num_elements : SSAValue
  res : SSAValue
deriving DecidableEq, Repr

/-- A value referenced by a newly built operation: either an operand taken
verbatim from the surrounding program, or result `idx` of the operation at
position `producer` in the emitted replacement sequence. -/
inductive Val where
  | operand (v : SSAValue)
  | newResult (producer : Nat) (idx : Nat)
deriving DecidableEq, Repr

/-- Newly built operations, one constructor per xdsl operation class the rule
instantiates: `func.Call` (callee name, argument list, result-type list),
`arith.Constant` (value and type), `arith.Cmpi` (two operands and a predicate
mnemonic), and `memref.ExtractAlignedPointerAsIndexOp`. -/
inductive Op where
  | funcCall (callee : String) (args : List Val) (resultTypes : List Ty)
  | arithConstant (value : Nat) (typ : Ty)
  | arithCmpi (lhs : Val) (rhs : Val) (pred : String)
  | extractAlignedPointerAsIndex (source : Val)
deriving DecidableEq, Repr

/-- Failure signalled when a precondition assert of `match_and_rewrite`
fails (spec section 7: PreconditionFailure with a reason). -/
structure PreconditionFailure where
  reason : String
deriving DecidableEq, Repr

/-- The output handed to the rewrite engine: the ordered replacement sequence
plus the values designated to replace the matched operation's results
(mirrors the two arguments of `rewriter.replace_matched_op`). -/
structure RewriteResult where
  new_ops : List Op
  new_results : List Val
deriving DecidableEq, Repr

/-- Reads the integer memory-region tag of a type, mirroring the two asserts
`isa(typ, memref.MemRefType)` and `isa(typ.memory_space, IntegerAttr)`:
`some tag` exactly when the type is a memref whose memory space is an
integer attribute. -/
def memorySpaceTag : Ty → Option Nat
  | Ty.memrefTy (Attr.integerAttr v) => some v
  | _ => none

/-- The ordered replacement sequence built in the body of
`match_and_rewrite`, given the two region tags already extracted. Position 0
is `transfer_id := func.Call.get "mchan_transfer_get_id" [] [i32]`;
positions 1 and 2 are the two index-typed constants holding the source and
destination tags; position 3 is the `ugt` comparison of those two constants;
positions 4 and 5 are the aligned-pointer extractions of the two buffers
(modelled from the spec: operand-operations built inline in the argument
list of `func.Call.get` are materialized immediately before the consuming
call, spec section 4.1 step 4); position 6 is the result-less push call with
arguments (element count, direction, source address, destination address). -/
def loweredOps (op : DmaStartOp) (src_tag dest_tag : Nat) : List Op :=
  [ Op.funcCall "mchan_transfer_get_id" [] [Ty.i32],
    Op.arithConstant src_tag Ty.index,
    Op.arithConstant dest_tag Ty.index,
    Op.arithCmpi (Val.newResult 1 0) (Val.newResult 2 0) "ugt",
    Op.extractAlignedPointerAsIndex (Val.operand op.src),
    Op.extractAlignedPointerAsIndex (Val.operand op.dest),
    Op.funcCall "mchan_transfer_push_1d"
      [ Val.operand op.num_elements,
        Val.newResult 3 0,
        Val.newResult 4 0,
        Val.newResult 5 0 ] [] ]

/-- The full rewrite output: the sequence above, with the single result of
the slot-allocation call (position 0) designated as the replacement for the
matched operation's results (mirrors passing `transfer_id.results` to
`rewriter.replace_matched_op`). -/
def loweredSeq (op : DmaStartOp) (src_tag dest_tag : Nat) : RewriteResult :=
  { new_ops := loweredOps op src_tag dest_tag,
    new_results := [Val.newResult 0 0] }

/-- Translation of `LowerDmaStartToPulpMchan.match_and_rewrite`: first the
source-operand asserts, then the destination-operand asserts, and only then
the construction of the replacement sequence; a failed assert signals a
PreconditionFailure and produces nothing. -/
def match_and_rewrite (op : DmaStartOp) : Except PreconditionFailure RewriteResult :=
  match memorySpaceTag op.src.typ with
  | none => Except.error ⟨"src type is not a memref with an IntegerAttr memory space"⟩
  | some src_tag =>
    match memorySpaceTag op.dest.typ with
    | none => Except.error ⟨"dest type is not a memref with an IntegerAttr memory space"⟩
    | some dest_tag => Except.ok (loweredSeq op src_tag dest_tag)

/-- The Region-Direction Resolver (spec section 4.2), as realized by the
emitted `arith.Cmpi ... "ugt"`: true exactly when the source tag is strictly
greater than the destination tag. Tags are non-negative (spec data model),
so the unsigned total order is the order on Nat. -/
def direction (source_tag dest_tag : Nat) : Bool :=
  decide (source_tag > dest_tag)

/-- Evaluation of an `arith.Cmpi` predicate mnemonic on two already-known
non-negative constant inputs, as used to state that the emitted comparison
computes the resolver's value. Modelled from the spec: the arith dialect
semantics is external to the analysed source tree; `ugt` is
unsigned greater-than. -/
def cmpiEval (pred : String) (a b : Nat) : Option Bool :=
  match pred with
  | "ugt" => some (decide (a > b))
  | _ => none

/-- Classification of emitted operations by the roles the spec names:
slot-allocation call, address-space constant (index-typed), direction
comparison, address extraction, push-transfer call. -/
inductive OpKind where
  | slotAlloc
  | addrSpaceConst
  | directionCmp
  | addrExtract
  | pushTransfer
  | otherKind
deriving DecidableEq, Repr

/-- Maps an operation to its role. -/
def Op.kind : Op → OpKind
  | Op.funcCall "mchan_transfer_get_id" _ _ => OpKind.slotAlloc
  | Op.funcCall "mchan_transfer_push_1d" _ _ => OpKind.pushTransfer
  | Op.funcCall _ _ _ => OpKind.otherKind
  | Op.arithConstant _ Ty.index => OpKind.addrSpaceConst
  | Op.arithConstant _ _ => OpKind.otherKind
  | Op.arithCmpi _ _ _ => OpKind.directionCmp
  | Op.extractAlignedPointerAsIndex _ => OpKind.addrExtract

/-- Modelled from the spec: the substitution step the external match engine
performs with the designated binding (spec section 4.1, result-replacement
guarantee) — every use equal to the old result value is rebound to the new
value, all other uses are untouched. The rule itself only returns the
binding; it never performs this mutation. -/
def substituteUses (oldv newv : Val) (uses : List Val) : List Val :=
  uses.map (fun u => if u = oldv then newv else u)

/-- Modelled from the spec: an operation as presented by the match engine —
either a Copy Instruction (memref.DmaStartOp), an operation produced by this
lowering, or any operation of another type. -/
inductive AnyOp where
  | dmaStart (op : DmaStartOp)
  | lowered (op : Op)
  | other (name : String) (id : Nat)
deriving DecidableEq, Repr

/-- Modelled from the spec: the dispatch installed by
`op_type_rewrite_pattern` — the rule fires only on operations of type
memref.DmaStartOp; any other operation is returned in place, unchanged. On a
match the replacement sequence is spliced in where the matched operation
stood. -/
def applyPattern (o : AnyOp) : Except PreconditionFailure (List AnyOp) :=
  match o with
  | AnyOp.dmaStart op => (match_and_rewrite op).map (fun r => r.new_ops.map AnyOp.lowered)
  | o => Except.ok [o]

/-- Modelled from the spec: the match engine walking a program and applying
the pattern to each operation in order, splicing each result in place. -/
def applyToProgram : List AnyOp → Except PreconditionFailure (List AnyOp)
  | [] => Except.ok []
  | o :: rest => do
    let h ← applyPattern o
    let t ← applyToProgram rest
    Except.ok (h ++ t)

/-- Helper: under the two preconditions, `match_and_rewrite` succeeds with
exactly the lowered sequence for the two extracted tags. -/
theorem match_and_rewrite_tags (op : DmaStartOp) (s d : Nat)
    (hs : op.src.typ = Ty.memrefTy (Attr.integerAttr s))
    (hd : op.dest.typ = Ty.memrefTy (Attr.integerAttr d)) :
    match_and_rewrite op = Except.ok (loweredSeq op s d) := by
  unfold match_and_rewrite
  rw [hs, hd]
  rfl

/-- Concrete example instruction used by the witnesses: source buffer in
region 2, destination buffer in region 0 (spec section 8, scenario 6). -/
def exOp : DmaStartOp :=
  { src := ⟨0, Ty.memrefTy (Attr.integerAttr 2)⟩,
    dest := ⟨1, Ty.memrefTy (Attr.integerAttr 0)⟩,
    num_elements := ⟨2, Ty.index⟩,
    res := ⟨3, Ty.i32⟩ }

/-- Concrete example instruction violating the source precondition: the
source operand's type is not a memref at all. -/
def exBadOp : DmaStartOp :=
  { src := ⟨0, Ty.i32⟩,
    dest := ⟨1, Ty.memrefTy (Attr.integerAttr 0)⟩,
    num_elements := ⟨2, Ty.index⟩,
    res := ⟨3, Ty.i32⟩ }

/-- Recognizes the address-space constants of the emitted sequence:
index-typed `arith.Constant` operations. -/
def Op.isAddrSpaceConst : Op → Bool
  | Op.arithConstant _ Ty.index => true
  | _ => false

/-- C1: for every Copy Instruction satisfying the preconditions, the rule
emits exactly one slot-allocation call, two address-space constants, one
direction comparison, two address-extraction operations and one
push-transfer call, in that relative order, with the push-transfer call
strictly last. -/
theorem claim_C1_sequence_shape (op : DmaStartOp) (s d : Nat)
    (hs : op.src.typ = Ty.memrefTy (Attr.integerAttr s))
    (hd : op.dest.typ = Ty.memrefTy (Attr.integerAttr d)) :
    ∃ r, match_and_rewrite op = Except.ok r ∧
      r.new_ops.map Op.kind =
        [OpKind.slotAlloc, OpKind.addrSpaceConst, OpKind.addrSpaceConst,
         OpKind.directionCmp, OpKind.addrExtract, OpKind.addrExtract,
         OpKind.pushTransfer] :=
  ⟨loweredSeq op s d, match_and_rewrite_tags op s d hs hd, rfl⟩

/-- Witness for C1 at the concrete example instruction. -/
theorem claim_C1_sequence_shape_wit :
    ∃ r, match_and_rewrite exOp = Except.ok r ∧
      r.new_ops.map Op.kind =
        [OpKind.slotAlloc, OpKind.addrSpaceConst, OpKind.addrSpaceConst,
         OpKind.directionCmp, OpKind.addrExtract, OpKind.addrExtract,
         OpKind.pushTransfer] :=
  claim_C1_sequence_shape exOp 2 0 rfl rfl

/-- C2: for every Copy Instruction whose source or destination type is not a
memref carrying an integer memory-space attribute, the rule signals a
PreconditionFailure and emits zero instructions: the result is an error
value carrying only a reason, never a replacement sequence. -/
theorem claim_C2_precondition_gating (op : DmaStartOp)
    (h : memorySpaceTag op.src.typ = none ∨ memorySpaceTag op.dest.typ = none) :
    ∃ e, match_and_rewrite op = Except.error e ∧
      ∀ r, match_and_rewrite op ≠ Except.ok r := by
  unfold match_and_rewrite
  rcases h with h | h
  · rw [h]
    exact ⟨_, rfl, fun r hr => Except.noConfusion hr⟩
  · cases hs : memorySpaceTag op.src.typ with
    | none => exact ⟨_, rfl, fun r hr => Except.noConfusion hr⟩
    | some s =>
      rw [h]
      exact ⟨_, rfl, fun r hr => Except.noConfusion hr⟩

/-- Witness for C2 at the concrete ill-typed example instruction. -/
theorem claim_C2_precondition_gating_wit :
    ∃ e, match_and_rewrite exBadOp = Except.error e ∧
      ∀ r, match_and_rewrite exBadOp ≠ Except.ok r :=
  claim_C2_precondition_gating exBadOp (Or.inl rfl)

/-- C3: the direction value is true exactly when the source tag is strictly
greater than the destination tag under the unsigned (natural-number) total
order; in particular direction is false on equal tags. -/
theorem claim_C3_direction_value (s d : Nat) :
    (direction s d = true ↔ s > d) ∧ direction d d = false := by
  constructor
  · simp [direction]
  · simp [direction]

/-- C4: for every Copy Instruction satisfying the preconditions, the
push-transfer call is last and its arguments are, in order: the original
element-count operand unchanged, the result of the direction comparison at
position 3 (an `ugt` comparison of the two tag constants at positions 1 and
2, which evaluates to direction(source tag, destination tag)), the source
address at position 4 and the destination address at position 5; the call
declares no result. -/
theorem claim_C4_push_call_arguments (op : DmaStartOp) (s d : Nat)
    (hs : op.src.typ = Ty.memrefTy (Attr.integerAttr s))
    (hd : op.dest.typ = Ty.memrefTy (Attr.integerAttr d)) :
    ∃ r, match_and_rewrite op = Except.ok r ∧
      r.new_ops.getLast? = some (Op.funcCall "mchan_transfer_push_1d"
        [Val.operand op.num_elements, Val.newResult 3 0,
         Val.newResult 4 0, Val.newResult 5 0] []) ∧
      r.new_ops[3]? = some (Op.arithCmpi (Val.newResult 1 0) (Val.newResult 2 0) "ugt") ∧
      r.new_ops[1]? = some (Op.arithConstant s Ty.index) ∧
      r.new_ops[2]? = some (Op.arithConstant d Ty.index) ∧
      r.new_ops[4]? = some (Op.extractAlignedPointerAsIndex (Val.operand op.src)) ∧
      r.new_ops[5]? = some (Op.extractAlignedPointerAsIndex (Val.operand op.dest)) ∧
      cmpiEval "ugt" s d = some (direction s d) :=
  ⟨loweredSeq op s d, match_and_rewrite_tags op s d hs hd,
    rfl, rfl, rfl, rfl, rfl, rfl, rfl⟩

/-- Witness for C4 at the concrete example instruction. -/
theorem claim_C4_push_call_arguments_wit :
    ∃ r, match_and_rewrite exOp = Except.ok r ∧
      r.new_ops.getLast? = some (Op.funcCall "mchan_transfer_push_1d"
        [Val.operand exOp.num_elements, Val.newResult 3 0,
         Val.newResult 4 0, Val.newResult 5 0] []) ∧
      r.new_ops[3]? = some (Op.arithCmpi (Val.newResult 1 0) (Val.newResult 2 0) "ugt") ∧
      r.new_ops[1]? = some (Op.arithConstant 2 Ty.index) ∧
      r.new_ops[2]? = some (Op.arithConstant 0 Ty.index) ∧
      r.new_ops[4]? = some (Op.extractAlignedPointerAsIndex (Val.operand exOp.src)) ∧
      r.new_ops[5]? = some (Op.extractAlignedPointerAsIndex (Val.operand exOp.dest)) ∧
      cmpiEval "ugt" 2 0 = some (direction 2 0) :=
  claim_C4_push_call_arguments exOp 2 0 rfl rfl

/-- C5: for every Copy Instruction satisfying the preconditions, the
result-replacement binding designates exactly the single result of the
slot-allocation call at position 0; applying the engine's substitution with
this binding leaves no use reading the old result, and every use afterwards
is either the new value or an untouched use different from the old result.
The rule itself returns only the binding and performs no mutation. -/
theorem claim_C5_result_rebinding (op : DmaStartOp) (s d : Nat)
    (hs : op.src.typ = Ty.memrefTy (Attr.integerAttr s))
    (hd : op.dest.typ = Ty.memrefTy (Attr.integerAttr d)) :
    ∃ r, match_and_rewrite op = Except.ok r ∧
      r.new_results = [Val.newResult 0 0] ∧
      r.new_ops[0]? = some (Op.funcCall "mchan_transfer_get_id" [] [Ty.i32]) ∧
      ∀ uses : List Val,
        Val.operand op.res ∉ substituteUses (Val.operand op.res) (Val.newResult 0 0) uses ∧
        ∀ u ∈ substituteUses (Val.operand op.res) (Val.newResult 0 0) uses,
          u = Val.newResult 0 0 ∨ (u ∈ uses ∧ u ≠ Val.operand op.res) := by
  refine ⟨loweredSeq op s d, match_and_rewrite_tags op s d hs hd, rfl, rfl, ?_⟩
  intro uses
  constructor
  · intro hmem
    rw [substituteUses, List.mem_map] at hmem
    obtain ⟨u, hu, heq⟩ := hmem
    by_cases h : u = Val.operand op.res
    · rw [if_pos h] at heq
      exact Val.noConfusion heq
    · rw [if_neg h] at heq
      exact h heq
  · intro u hmem
    rw [substituteUses, List.mem_map] at hmem
    obtain ⟨v, hv, heq⟩ := hmem
    by_cases h : v = Val.operand op.res
    · rw [if_pos h] at heq
      exact Or.inl heq.symm
    · rw [if_neg h] at heq
      exact Or.inr ⟨heq ▸ hv, heq ▸ h⟩

/-- Witness for C5 at the concrete example instruction. -/
theorem claim_C5_result_rebinding_wit :
    ∃ r, match_and_rewrite exOp = Except.ok r ∧
      r.new_results = [Val.newResult 0 0] ∧
      r.new_ops[0]? = some (Op.funcCall "mchan_transfer_get_id" [] [Ty.i32]) ∧
      ∀ uses : List Val,
        Val.operand exOp.res ∉ substituteUses (Val.operand exOp.res) (Val.newResult 0 0) uses ∧
        ∀ u ∈ substituteUses (Val.operand exOp.res) (Val.newResult 0 0) uses,
          u = Val.newResult 0 0 ∨ (u ∈ uses ∧ u ≠ Val.operand exOp.res) :=
  claim_C5_result_rebinding exOp 2 0 rfl rfl

/-- C6: the direction function is antisymmetric: on distinct tags it is the
negation of its flip, and on equal tags it is false. -/
theorem claim_C6_direction_antisymmetry (a b : Nat) :
    (a ≠ b → direction a b = !direction b a) ∧ direction a a = false := by
  constructor
  · intro hne
    rcases Nat.lt_or_ge b a with h | h
    · have h2 : ¬ a < b := Nat.not_lt.mpr (Nat.le_of_lt h)
      simp [direction, h, h2]
    · have h2 : a < b := Nat.lt_of_le_of_ne h hne
      have h3 : ¬ b < a := Nat.not_lt.mpr (Nat.le_of_lt h2)
      simp [direction, h2, h3]
  · simp [direction]

/-- Witness for C6 at the concrete tags 2 and 0, and tie tag 1. -/
theorem claim_C6_direction_antisymmetry_wit :
    direction 2 0 = !direction 0 2 ∧ direction 1 1 = false :=
  ⟨(claim_C6_direction_antisymmetry 2 0).1 (by decide),
   (claim_C6_direction_antisymmetry 1 1).2⟩

/-- C7: for every Copy Instruction satisfying the preconditions, the first
emitted instruction is the call to the slot-allocation entry point, with no
arguments and exactly one i32 result, and that single result is the
designated replacement for the matched instruction's result. -/
theorem claim_C7_slot_allocation_first (op : DmaStartOp) (s d : Nat)
    (hs : op.src.typ = Ty.memrefTy (Attr.integerAttr s))
    (hd : op.dest.typ = Ty.memrefTy (Attr.integerAttr d)) :
    ∃ r, match_and_rewrite op = Except.ok r ∧
      r.new_ops.head? = some (Op.funcCall "mchan_transfer_get_id" [] [Ty.i32]) ∧
      r.new_results = [Val.newResult 0 0] :=
  ⟨loweredSeq op s d, match_and_rewrite_tags op s d hs hd, rfl, rfl⟩

/-- Witness for C7 at the concrete example instruction. -/
theorem claim_C7_slot_allocation_first_wit :
    ∃ r, match_and_rewrite exOp = Except.ok r ∧
      r.new_ops.head? = some (Op.funcCall "mchan_transfer_get_id" [] [Ty.i32]) ∧
      r.new_results = [Val.newResult 0 0] :=
  claim_C7_slot_allocation_first exOp 2 0 rfl rfl

/-- C8: for every Copy Instruction satisfying the preconditions, the emitted
sequence contains exactly two index-typed constants, the first holding the
source descriptor's tag and the second the destination descriptor's tag, and
the direction comparison consumes exactly the results of those two constants
(positions 1 and 2). -/
theorem claim_C8_address_space_constants (op : DmaStartOp) (s d : Nat)
    (hs : op.src.typ = Ty.memrefTy (Attr.integerAttr s))
    (hd : op.dest.typ = Ty.memrefTy (Attr.integerAttr d)) :
    ∃ r, match_and_rewrite op = Except.ok r ∧
      r.new_ops.filter Op.isAddrSpaceConst =
        [Op.arithConstant s Ty.index, Op.arithConstant d Ty.index] ∧
      r.new_ops[3]? = some (Op.arithCmpi (Val.newResult 1 0) (Val.newResult 2 0) "ugt") ∧
      r.new_ops[1]? = some (Op.arithConstant s Ty.index) ∧
      r.new_ops[2]? = some (Op.arithConstant d Ty.index) :=
  ⟨loweredSeq op s d, match_and_rewrite_tags op s d hs hd, rfl, rfl, rfl, rfl⟩

/-- Witness for C8 at the concrete example instruction. -/
theorem claim_C8_address_space_constants_wit :
    ∃ r, match_and_rewrite exOp = Except.ok r ∧
      r.new_ops.filter Op.isAddrSpaceConst =
        [Op.arithConstant 2 Ty.index, Op.arithConstant 0 Ty.index] ∧
      r.new_ops[3]? = some (Op.arithCmpi (Val.newResult 1 0) (Val.newResult 2 0) "ugt") ∧
      r.new_ops[1]? = some (Op.arithConstant 2 Ty.index) ∧
      r.new_ops[2]? = some (Op.arithConstant 0 Ty.index) :=
  claim_C8_address_space_constants exOp 2 0 rfl rfl

/-- C9: the rewrite is deterministic and depends only on the instruction's
source operand, destination operand and element-count operand: two
invocations on instructions agreeing on those produce equal outputs (same
sequence, same result-replacement designation). -/
theorem claim_C9_deterministic (op1 op2 : DmaStartOp)
    (hsrc : op1.src = op2.src) (hdest : op1.dest = op2.dest)
    (hcount : op1.num_elements = op2.num_elements) :
    match_and_rewrite op1 = match_and_rewrite op2 := by
  unfold match_and_rewrite loweredSeq loweredOps
  rw [hsrc, hdest, hcount]

/-- Concrete example instruction equal to `exOp` except for the identity of
its result slot. -/
def exOp2 : DmaStartOp :=
  { exOp with res := ⟨9, Ty.i32⟩ }

/-- Witness for C9: two structurally matching instructions give the same
rewrite output. -/
theorem claim_C9_deterministic_wit :
    match_and_rewrite exOp = match_and_rewrite exOp2 :=
  claim_C9_deterministic exOp exOp2 rfl rfl rfl

/-- C10: the pattern fires only on memref.DmaStartOp: a program containing
no Copy Instruction passes through the engine completely unchanged. -/
theorem claim_C10_only_dma_start (prog : List AnyOp)
    (h : ∀ o ∈ prog, ∀ d, o ≠ AnyOp.dmaStart d) :
    applyToProgram prog = Except.ok prog := by
  induction prog with
  | nil => rfl
  | cons o rest ih =>
    have ho : ∀ d, o ≠ AnyOp.dmaStart d := h o (List.mem_cons_self o rest)
    have hrest : ∀ x ∈ rest, ∀ d, x ≠ AnyOp.dmaStart d :=
      fun x hx => h x (List.mem_cons_of_mem o hx)
    have hpat : applyPattern o = Except.ok [o] := by
      cases o with
      | dmaStart d => exact absurd rfl (ho d)
      | lowered p => rfl
      | other n i => rfl
    show (do
      let hd ← applyPattern o
      let tl ← applyToProgram rest
      Except.ok (hd ++ tl)) = Except.ok (o :: rest)
    rw [hpat, ih hrest]
    rfl

/-- Witness for C10 at a one-operation program of another operation type. -/
theorem claim_C10_only_dma_start_wit :
    applyToProgram [AnyOp.other "arith.addi" 0] =
      Except.ok [AnyOp.other "arith.addi" 0] :=
  claim_C10_only_dma_start [AnyOp.other "arith.addi" 0]
    (by
      intro o ho d
      rw [List.mem_singleton] at ho
      rw [ho]
      exact fun hcon => AnyOp.noConfusion hcon)

end MemrefDmaToPulp
